import Mathlib

/-!
Shallow embedding of the ytaudio batch-download pipeline.

Go strings are modelled as `List Char` (`GoStr`); Go slices as `List`.
The external collaborators (YouTube search API, yt-dlp process) are
modelled as oracle functions inside an `Env`.  Concurrent dispatch of the
buffered-channel worker pool is modelled by an arbitrary partition of the
job list across the started workers (`ValidSchedule`).
-/

/-- Go strings, modelled as lists of characters. -/
abbrev GoStr := List Char

/-- The ASCII/Latin-1 portion of Go `unicode.IsSpace`, which is all
`strings.TrimSpace` consults on the inputs of this program. -/
def goIsSpace (c : Char) : Bool :=
  c = ' ' || c = '\t' || c = '\n' || c = '\x0b' || c = '\x0c' || c = '\r' ||
  c = '\u0085' || c = '\u00A0'

/-- Go `strings.TrimSpace`: drop whitespace from both ends. -/
def trimSpace (s : GoStr) : GoStr :=
  ((s.dropWhile goIsSpace).reverse.dropWhile goIsSpace).reverse

/-- Go `strings.Split(s, ",")`: split at every comma; `n` commas give
`n+1` fields, the empty string gives one empty field. -/
def splitComma : GoStr → List GoStr
  | [] => [[]]
  | c :: cs =>
    match splitComma cs with
    | [] => [[c]]
    | t :: ts => if c = ',' then [] :: t :: ts else (c :: t) :: ts

/-- The comma-separated Job Source of `downloadSongList`
(src/unnamed/part_000 lines 166-175): split on commas, trim each entry,
keep the nonempty ones in order. -/
def cleanSongsOf (s : GoStr) : List GoStr :=
  ((splitComma s).map trimSpace).filter (fun t => ¬ t.isEmpty)

/-- A search result: identifier plus display title (`Video` in the source). -/
structure Video where
  id : GoStr
  title : GoStr

/-- Oracles for the external collaborators: `resolve` embeds
`searchVideos` (network search, may fail or return zero candidates) and
`fetch` embeds `DownloadAudio` (blocking yt-dlp invocation). -/
structure Env where
  resolve : GoStr → Except GoStr (List Video)
  fetch : GoStr → Except GoStr Unit

/-- Error text of `fmt.Errorf("search failed for '%s': %w", song, err)`. -/
def searchFailedMsg (song e : GoStr) : GoStr :=
  "search failed for '".toList ++ song ++ "': ".toList ++ e

/-- Error text of `fmt.Errorf("no videos found for '%s'", song)`. -/
def notFoundMsg (song : GoStr) : GoStr :=
  "no videos found for '".toList ++ song ++ "'".toList

/-- Error text of `fmt.Errorf("download failed for '%s': %w", song, err)`. -/
def downloadFailedMsg (song e : GoStr) : GoStr :=
  "download failed for '".toList ++ song ++ "': ".toList ++ e

/-- One iteration of the `songWorker` loop (src/unnamed/part_000 lines
225-252): resolve `song + " audio"`; on search failure or zero videos
report a failure and fetch nothing; otherwise fetch the first video's id
and report its outcome.  Returns the value sent to the results channel
(`none` = nil error) paired with the list of fetch calls performed. -/
def songWorkerStep (env : Env) (song : GoStr) : Option GoStr × List GoStr :=
  match env.resolve (song ++ " audio".toList) with
  | .error e => (some (searchFailedMsg song e), [])
  | .ok [] => (some (notFoundMsg song), [])
  | .ok (v :: _) =>
    match env.fetch v.id with
    | .error e => (some (downloadFailedMsg song e), [v.id])
    | .ok _ => (none, [v.id])

/-- A whole `songWorker` run over the jobs that worker dequeued. -/
def runWorker (env : Env) (jobsTaken : List GoStr) : List (Option GoStr × List GoStr) :=
  jobsTaken.map (songWorkerStep env)

/-- The spawn loop `for w := 1; w <= c; w++ { wg.Add(1); go ... }`
counted from loop variable `w`: number of goroutines started. -/
def spawnLoop (w c : Int) : Nat :=
  if w ≤ c then 1 + spawnLoop (w + 1) c else 0
termination_by (c + 1 - w).toNat
decreasing_by simp_wf; omega

/-- Number of workers started by the pool for `ConcurrentDownloads = c`. -/
def workersStarted (c : Int) : Nat :=
  spawnLoop 1 c

/-- A schedule of the concurrent dispatch: which worker dequeued which
jobs.  The partition has one block per started worker; when at least one
worker runs, the closed buffered channel hands every job to exactly one
worker (in some interleaving), so the blocks jointly hold exactly the job
list; with zero workers nothing is ever dequeued. -/
def ValidSchedule (c : Int) (jobs : List GoStr) (partition : List (List GoStr)) : Prop :=
  partition.length = workersStarted c ∧
  (1 ≤ workersStarted c → (partition.flatten).Perm jobs)

/-- Contents of the results channel after all workers exit. -/
def poolResults (env : Env) (partition : List (List GoStr)) : List (Option GoStr) :=
  ((partition.map (runWorker env)).flatten).map Prod.fst

/-- All fetch (download) calls performed by the pool. -/
def poolFetched (env : Env) (partition : List (List GoStr)) : List GoStr :=
  (((partition.map (runWorker env)).flatten).map Prod.snd).flatten

/-- The aggregation loop `for err := range results { if err != nil {
errors = append(errors, err) } }`. -/
def collectErrors (results : List (Option GoStr)) : List GoStr :=
  results.filterMap id

/-- Number of iterations of the aggregation loop over the closed results
channel. -/
def drainCount (results : List (Option GoStr)) : Nat :=
  results.foldl (fun n _ => n + 1) 0

/-- Error text of `fmt.Errorf("no valid songs found in the list")`. -/
def errNoSongs : GoStr := "no valid songs found in the list".toList

/-- Error text of `fmt.Errorf("encountered %d errors during download", n)`. -/
def errAggregate (n : Nat) : GoStr :=
  ("encountered " ++ toString n ++ " errors during download").toList

/-- Observable result of a batch call: the returned error (if any), the
number of failed jobs drained from the results channel, and the download
calls performed. -/
structure BatchOutcome where
  result : Except GoStr Unit
  failed : Nat
  fetched : List GoStr

/-- `DownloadSongList` (src/unnamed/part_000 lines 154-220) after the
job list has been cleaned: empty list returns the "no valid songs" error
before any worker starts; otherwise the pool runs under the given
schedule, errors are collected, and a batch with one or more errors
returns the aggregate "encountered N errors" error. -/
def downloadSongList (env : Env) (partition : List (List GoStr))
    (cleanSongs : List GoStr) : BatchOutcome :=
  if cleanSongs.isEmpty then
    { result := .error errNoSongs, failed := 0, fetched := [] }
  else
    let errors := collectErrors (poolResults env partition)
    { result := if 0 < errors.length then .error (errAggregate errors.length) else .ok ()
      failed := errors.length
      fetched := poolFetched env partition }

/-- One iteration of the playlist `worker` loop (src/unnamed/part_002
lines 95-102): always call the download function and forward its error
(nil on success) to the results channel. -/
def playlistWorkerStep (env : Env) (videoID : GoStr) : Option GoStr × List GoStr :=
  match env.fetch videoID with
  | .error e => (some e, [videoID])
  | .ok _ => (none, [videoID])

/-- A whole playlist `worker` run over the jobs that worker dequeued. -/
def runPlaylistWorker (env : Env) (jobsTaken : List GoStr) : List (Option GoStr × List GoStr) :=
  jobsTaken.map (playlistWorkerStep env)

/-- `DownloadPlaylist` (src/unnamed/part_002 lines 27-65) after the video
list has been fetched: run the pool, drain the results logging failures,
and return nil unconditionally. -/
def downloadPlaylist (env : Env) (partition : List (List GoStr)) : BatchOutcome :=
  let results := (partition.map (runPlaylistWorker env)).flatten
  { result := .ok ()
    failed := (collectErrors (results.map Prod.fst)).length
    fetched := (results.map Prod.snd).flatten }

/-- The ASCII portion of Go `strings.ToLower`, applied character-wise. -/
def goToLower (s : GoStr) : GoStr :=
  s.map Char.toLower

/-- The data-row body of the `readSongsFromCSV` loop (src/unnamed/part_000
lines 279-287): a record with at least two fields whose first two fields
are nonempty after trimming yields the single query
`"<artist> - <song>"`; every other record yields nothing. -/
def processRecord (record : List GoStr) : List GoStr :=
  if 2 ≤ record.length then
    if ¬(trimSpace (record.getD 0 [])).isEmpty ∧ ¬(trimSpace (record.getD 1 [])).isEmpty then
      [trimSpace (record.getD 0 []) ++ " - ".toList ++ trimSpace (record.getD 1 [])]
    else []
  else []

/-- The header test of `readSongsFromCSV` (src/unnamed/part_000 line
274): the row has at least two fields and its first field lowercases to
"artist" or its second to "song". -/
def isHeaderRow (record : List GoStr) : Bool :=
  decide (2 ≤ record.length) &&
    (goToLower (record.getD 0 []) == "artist".toList ||
     goToLower (record.getD 1 []) == "song".toList)

/-- `readSongsFromCSV` (src/unnamed/part_000 lines 256-292) after CSV
parsing: the first record is skipped when `isHeaderRow` holds, and every
record otherwise contributes via `processRecord`. -/
def readSongsFromCSV : List (List GoStr) → List GoStr
  | [] => []
  | record :: rest =>
    (if isHeaderRow record then [] else processRecord record) ++
      rest.flatMap processRecord

/-- Go `strings.ReplaceAll(s, old, new)` for one-character `old` and
`new`: replace every occurrence character-wise. -/
def replaceAllChar (s : GoStr) (old new : Char) : GoStr :=
  s.map fun c => if c = old then new else c

/-- The nine characters `sanitizeFileName` replaces
(src/unnamed/part_000 line 315). -/
def invalidFileChars : List Char :=
  ['/', '\\', ':', '*', '?', '"', '<', '>', '|']

/-- `sanitizeFileName` (src/unnamed/part_000 lines 313-321): replace each
invalid character with an underscore, one `ReplaceAll` pass per
character. -/
def sanitizeFileName (fileName : GoStr) : GoStr :=
  invalidFileChars.foldl (fun acc c => replaceAllChar acc c '_') fileName

/-- A test environment in which every search returns one candidate and
every fetch succeeds. -/
def envOk : Env :=
  { resolve := fun _ => .ok [{ id := "dQw4w9WgXcQ".toList, title := "title".toList }]
    fetch := fun _ => .ok () }

/-- A test environment in which every search succeeds but every fetch
fails. -/
def envFetchFail : Env :=
  { resolve := fun _ => .ok [{ id := "dQw4w9WgXcQ".toList, title := "title".toList }]
    fetch := fun _ => .error "boom".toList }

/-- A test environment in which every search returns zero candidates. -/
def envNotFound : Env :=
  { resolve := fun _ => .ok []
    fetch := fun _ => .ok () }

/-- Character-level characterization of `sanitizeFileName`: an invalid
character becomes an underscore, anything else is unchanged. -/
def sanitizeChar (c : Char) : Char :=
  if c ∈ invalidFileChars then '_' else c

/-- The cumulative effect of the nine sequential `ReplaceAll` passes on a
single character. -/
def sanitizeCharFold (x : Char) : Char :=
  invalidFileChars.foldl (fun a c => if a = c then '_' else a) x

theorem spawnLoop_eq (w c : Int) : spawnLoop w c = (c + 1 - w).toNat := by
  generalize hn : (c + 1 - w).toNat = n
  induction n generalizing w with
  | zero =>
    unfold spawnLoop
    have hw : ¬w ≤ c := by omega
    simp [hw]
  | succ n ih =>
    unfold spawnLoop
    have hw : w ≤ c := by omega
    have hn' : (c + 1 - (w + 1)).toNat = n := by omega
    simp [hw, ih (w + 1) hn']
    omega

theorem workersStarted_eq (c : Int) : workersStarted c = c.toNat := by
  unfold workersStarted
  rw [spawnLoop_eq]
  omega

theorem foldl_count_eq (l : List (Option GoStr)) (k : Nat) :
    l.foldl (fun n _ => n + 1) k = k + l.length := by
  induction l generalizing k with
  | nil => simp
  | cons x xs ih => simp [List.foldl_cons, ih]; omega

theorem drainCount_eq (results : List (Option GoStr)) :
    drainCount results = results.length := by
  unfold drainCount
  rw [foldl_count_eq]
  omega

theorem runWorker_length (env : Env) (ws : List GoStr) :
    (runWorker env ws).length = ws.length := by
  simp [runWorker]

theorem poolResults_length (env : Env) (partition : List (List GoStr)) :
    (poolResults env partition).length = partition.flatten.length := by
  unfold poolResults
  induction partition with
  | nil => rfl
  | cons ws rest ih =>
    simp only [List.map_cons, List.flatten_cons, List.map_append,
      List.length_append] at *
    rw [ih, List.length_map, runWorker_length]

theorem flatMap_nil_of_forall {α β : Type} (l : List α) (f : α → List β)
    (h : ∀ a ∈ l, f a = []) : l.flatMap f = [] := by
  induction l with
  | nil => rfl
  | cons x xs ih =>
    rw [List.flatMap_cons, h x (by simp), ih (fun a ha => h a (by simp [ha]))]
    rfl

theorem sanitizeFileName_foldl_map (L : List Char) (s : GoStr) :
    L.foldl (fun acc c => replaceAllChar acc c '_') s =
      s.map (fun x => L.foldl (fun a c => if a = c then '_' else a) x) := by
  induction L generalizing s with
  | nil => simp
  | cons c L ih =>
    rw [List.foldl_cons, ih]
    unfold replaceAllChar
    rw [List.map_map]
    rfl

theorem sanitizeCharFold_eq (x : Char) : sanitizeCharFold x = sanitizeChar x := by
  by_cases hx : x ∈ invalidFileChars
  · fin_cases hx <;> rfl
  · simp only [invalidFileChars, List.mem_cons, List.mem_singleton,
      not_or] at hx
    obtain ⟨h1, h2, h3, h4, h5, h6, h7, h8, h9⟩ := hx
    unfold sanitizeCharFold sanitizeChar invalidFileChars
    simp [List.foldl_cons, h1, h2, h3, h4, h5, h6, h7, h8, h9,
      List.mem_cons]

theorem sanitizeFileName_eq_map (s : GoStr) :
    sanitizeFileName s = s.map sanitizeChar := by
  unfold sanitizeFileName
  rw [sanitizeFileName_foldl_map]
  exact List.map_congr_left fun x _ => sanitizeCharFold_eq x

theorem sanitizeChar_not_invalid (c : Char) : sanitizeChar c ∉ invalidFileChars := by
  unfold sanitizeChar
  by_cases hc : c ∈ invalidFileChars
  · simp [hc]
    decide
  · simp [hc]

theorem sanitizeChar_idem (c : Char) : sanitizeChar (sanitizeChar c) = sanitizeChar c := by
  have h := sanitizeChar_not_invalid c
  show (if sanitizeChar c ∈ invalidFileChars then '_' else sanitizeChar c) = sanitizeChar c
  rw [if_neg h]

/-- C1: for every job list and every schedule with worker count from a
limit `c ≥ 1`, in which the closed buffered job channel hands each of the
`N` enqueued jobs to exactly one worker, the workers together put exactly
`N` results on the results channel — one per job, none dropped, none
duplicated — and the aggregation loop that runs after all workers exit
drains exactly those `N` results. -/
theorem claim_C1_one_outcome_per_job (env : Env) (c : Int) (jobs : List GoStr)
    (partition : List (List GoStr)) (hc : 1 ≤ c)
    (hs : ValidSchedule c jobs partition) :
    (poolResults env partition).length = jobs.length ∧
    drainCount (poolResults env partition) = jobs.length := by
  have hw : 1 ≤ workersStarted c := by rw [workersStarted_eq]; omega
  have hperm := hs.2 hw
  have hlen : (poolResults env partition).length = jobs.length := by
    rw [poolResults_length]
    exact hperm.length_eq
  exact ⟨hlen, by rw [drainCount_eq]; exact hlen⟩

/-- Witness for C1: two jobs dispatched across two workers yield exactly
two results, and the aggregation loop drains exactly two. -/
theorem claim_C1_witness :
    (poolResults envOk [["Song A".toList], ["Song B".toList]]).length = 2 ∧
    drainCount (poolResults envOk [["Song A".toList], ["Song B".toList]]) = 2 := by
  have hs : ValidSchedule 2 ["Song A".toList, "Song B".toList]
      [["Song A".toList], ["Song B".toList]] := by
    constructor
    · rw [workersStarted_eq]
      decide
    · intro _
      decide
  exact claim_C1_one_outcome_per_job envOk 2 ["Song A".toList, "Song B".toList]
    [["Song A".toList], ["Song B".toList]] (by omega) hs

/-- C6 counterexample: with `ConcurrentDownloads = 5` and 2 jobs the pool
starts 5 workers, not `min 5 2 = 2`. -/
theorem claim_C6_counterexample :
    workersStarted 5 = 5 ∧
    min 5 (["Song A".toList, "Song B".toList] : List GoStr).length = 2 ∧
    workersStarted 5 ≠ min 5 (["Song A".toList, "Song B".toList] : List GoStr).length := by
  have h := workersStarted_eq 5
  refine ⟨by rw [h]; rfl, by decide, by rw [h]; decide⟩

/-- C6 amended: the spawn loop starts exactly `c.toNat` workers — `c`
workers for any limit `c ≥ 1`, zero for `c ≤ 0` — independent of the job
count, which the loop never consults. -/
theorem claim_C6_workers_started_eq_limit (c : Int) :
    workersStarted c = c.toNat :=
  workersStarted_eq c

/-- C9: the comma-separated job source trims every entry, keeps exactly
the entries that are nonempty after trimming, preserves their relative
order (the job list is a sublist of the trimmed entry list), and on the
input "Song A, , Song B" yields exactly the two jobs "Song A" and
"Song B" in that order. -/
theorem claim_C9_comma_list (s : GoStr) :
    List.Sublist (cleanSongsOf s) ((splitComma s).map trimSpace) ∧
    (∀ t ∈ cleanSongsOf s, ¬t.isEmpty) ∧
    (∀ t ∈ (splitComma s).map trimSpace, ¬t.isEmpty → t ∈ cleanSongsOf s) ∧
    cleanSongsOf ("Song A, , Song B".toList) = ["Song A".toList, "Song B".toList] := by
  refine ⟨List.filter_sublist _, fun t ht => ?_, fun t ht hne => ?_, by decide⟩
  · have h := (List.mem_filter.mp ht).2
    simpa using h
  · exact List.mem_filter.mpr ⟨ht, by simpa [List.isEmpty_iff] using hne⟩

/-- Witness for C9: the kept entry "Song A" of the concrete input is
nonempty. -/
theorem claim_C9_witness : ¬("Song A".toList : GoStr).isEmpty :=
  (claim_C9_comma_list ("Song A, , Song B".toList)).2.1 ("Song A".toList) (by decide)

/-- C10: the output of sanitizeFileName contains none of the nine
characters `/ \ : * ? " < > |`, and sanitizeFileName is idempotent. -/
theorem claim_C10_sanitize_clean_idem (s : GoStr) :
    (∀ c ∈ sanitizeFileName s, c ∉ invalidFileChars) ∧
    sanitizeFileName (sanitizeFileName s) = sanitizeFileName s := by
  constructor
  · intro c hc
    rw [sanitizeFileName_eq_map] at hc
    obtain ⟨a, _, rfl⟩ := List.mem_map.mp hc
    exact sanitizeChar_not_invalid a
  · rw [sanitizeFileName_eq_map, sanitizeFileName_eq_map, List.map_map]
    exact List.map_congr_left fun x _ => sanitizeChar_idem x

/-- Witness for C10 on the input "a/b". -/
theorem claim_C10_witness :
    ('a' ∉ invalidFileChars) ∧
    sanitizeFileName (sanitizeFileName "a/b".toList) = sanitizeFileName "a/b".toList :=
  ⟨(claim_C10_sanitize_clean_idem "a/b".toList).1 'a' (by decide),
   (claim_C10_sanitize_clean_idem "a/b".toList).2⟩

theorem readSongsFromCSV_cons (record : List GoStr) (rest : List (List GoStr)) :
    readSongsFromCSV (record :: rest) =
      (if isHeaderRow record then [] else processRecord record) ++
        rest.flatMap processRecord := rfl

theorem downloadSongList_cons (env : Env) (partition : List (List GoStr))
    (a : GoStr) (l : List GoStr) :
    downloadSongList env partition (a :: l) =
      { result := if 0 < (collectErrors (poolResults env partition)).length
            then .error (errAggregate (collectErrors (poolResults env partition)).length)
            else .ok ()
        failed := (collectErrors (poolResults env partition)).length
        fetched := poolFetched env partition } := rfl

/-- C2 counterexample: a playlist batch whose single job fails still
returns success (nil) to its caller — `DownloadPlaylist` only logs the
drained failures — so the batch operation does not report an aggregate
error for every failing batch. -/
theorem claim_C2_counterexample :
    (downloadPlaylist envFetchFail [["v1".toList]]).failed = 1 ∧
    (downloadPlaylist envFetchFail [["v1".toList]]).result = .ok () :=
  ⟨rfl, rfl⟩

/-- C2 amended: for a nonempty job list, `DownloadSongList` returns the
aggregate error "encountered N errors during download" exactly when the
number `N` of failed jobs drained from the results channel is positive,
returns success when it is zero, and in either case reports the downloads
the pool performed unchanged (no rollback); `DownloadPlaylist` instead
returns success to its caller regardless of how many jobs failed. -/
theorem claim_C2_aggregate_error_policy (env : Env)
    (partition otherPartition : List (List GoStr)) (cleanSongs : List GoStr)
    (hne : cleanSongs ≠ []) :
    (0 < (downloadSongList env partition cleanSongs).failed →
      (downloadSongList env partition cleanSongs).result =
        .error (errAggregate (downloadSongList env partition cleanSongs).failed)) ∧
    ((downloadSongList env partition cleanSongs).failed = 0 →
      (downloadSongList env partition cleanSongs).result = .ok ()) ∧
    (downloadSongList env partition cleanSongs).fetched = poolFetched env partition ∧
    (downloadPlaylist env otherPartition).result = .ok () := by
  obtain ⟨a, l, rfl⟩ := List.exists_cons_of_ne_nil hne
  rw [downloadSongList_cons]
  refine ⟨?_, ?_, rfl, rfl⟩
  · intro hpos
    dsimp only at hpos ⊢
    rw [if_pos hpos]
  · intro hzero
    dsimp only at hzero ⊢
    rw [if_neg (by omega)]

/-- Witness for C2: one job whose fetch fails makes `DownloadSongList`
return the aggregate error naming the failure count. -/
theorem claim_C2_witness :
    (downloadSongList envFetchFail [["Song A".toList]] ["Song A".toList]).result =
      .error (errAggregate
        (downloadSongList envFetchFail [["Song A".toList]] ["Song A".toList]).failed) :=
  (claim_C2_aggregate_error_policy envFetchFail [["Song A".toList]] []
    ["Song A".toList] (by decide)).1 (by decide)

/-- C3 counterexample: with `ConcurrentDownloads = 0` and one job, the
empty schedule is the valid one (zero workers start), yet the batch
returns success with nothing fetched — no configuration error is
reported. -/
theorem claim_C3_counterexample :
    ValidSchedule 0 ["Song A".toList] [] ∧
    (downloadSongList envOk [] ["Song A".toList]).result = .ok () ∧
    (downloadSongList envOk [] ["Song A".toList]).fetched = [] := by
  refine ⟨⟨?_, ?_⟩, rfl, rfl⟩
  · rw [workersStarted_eq]
    rfl
  · intro hw
    rw [workersStarted_eq] at hw
    exact absurd hw (by decide)

/-- C3 amended: a `ConcurrentLimit ≤ 0` is neither rejected as a
configuration error nor clamped to 1: the spawn loop starts zero workers,
no job is dequeued, nothing is fetched, and the batch returns success
(nil) even though jobs were enqueued. -/
theorem claim_C3_zero_limit_silent_noop (env : Env) (c : Int) (jobs : List GoStr)
    (partition : List (List GoStr)) (hc : c ≤ 0) (hjobs : jobs ≠ [])
    (hs : ValidSchedule c jobs partition) :
    workersStarted c = 0 ∧ partition = [] ∧
    (downloadSongList env partition jobs).result = .ok () ∧
    (downloadSongList env partition jobs).failed = 0 ∧
    (downloadSongList env partition jobs).fetched = [] := by
  have hw : workersStarted c = 0 := by rw [workersStarted_eq]; omega
  have hp : partition = [] := by
    have hlen := hs.1
    rw [hw] at hlen
    exact List.length_eq_zero.mp hlen
  subst hp
  obtain ⟨a, l, rfl⟩ := List.exists_cons_of_ne_nil hjobs
  rw [downloadSongList_cons]
  exact ⟨hw, rfl, rfl, rfl, rfl⟩

/-- Witness for C3 at limit 0 and one job. -/
theorem claim_C3_witness :
    workersStarted 0 = 0 ∧ ([] : List (List GoStr)) = [] ∧
    (downloadSongList envOk [] ["Song A".toList]).result = .ok () ∧
    (downloadSongList envOk [] ["Song A".toList]).failed = 0 ∧
    (downloadSongList envOk [] ["Song A".toList]).fetched = [] :=
  claim_C3_zero_limit_silent_noop envOk 0 ["Song A".toList] [] (by omega) (by decide)
    ⟨by rw [workersStarted_eq]; rfl, by
      intro hw
      rw [workersStarted_eq] at hw
      exact absurd hw (by decide)⟩

/-- C4 counterexample: an input that cleans to zero jobs (the empty song
list) makes `DownloadSongList` return the error "no valid songs found in
the list", not a success result. -/
theorem claim_C4_counterexample :
    cleanSongsOf "".toList = [] ∧
    (downloadSongList envOk [[], []] (cleanSongsOf "".toList)).result =
      .error errNoSongs :=
  ⟨rfl, rfl⟩

/-- C4 amended: with zero jobs nothing is ever fetched, but the two batch
operations disagree on the result: `DownloadSongList` rejects the empty
job list with the error "no valid songs found in the list" before any
worker starts, while `DownloadPlaylist` on an empty playlist completes
with success and zero failures. -/
theorem claim_C4_zero_jobs (env : Env) (c : Int) (partition : List (List GoStr))
    (hs : ValidSchedule c [] partition) :
    downloadSongList env partition [] =
      { result := .error errNoSongs, failed := 0, fetched := [] } ∧
    (downloadPlaylist env partition).result = .ok () ∧
    (downloadPlaylist env partition).failed = 0 ∧
    (downloadPlaylist env partition).fetched = [] := by
  have hblocks : ∀ ws ∈ partition, ws = [] := by
    by_cases hw : 1 ≤ workersStarted c
    · have hflat : partition.flatten = [] := (hs.2 hw).eq_nil
      exact List.flatten_eq_nil_iff.mp hflat
    · have hz : workersStarted c = 0 := by omega
      have hp : partition = [] := by
        have hlen := hs.1
        rw [hz] at hlen
        exact List.length_eq_zero.mp hlen
      subst hp
      intro ws hws
      cases hws
  have hres : (partition.map (runPlaylistWorker env)).flatten = [] := by
    apply List.flatten_eq_nil_iff.mpr
    intro xs hxs
    obtain ⟨ws, hws, rfl⟩ := List.mem_map.mp hxs
    rw [hblocks ws hws]
    rfl
  refine ⟨rfl, ?_, ?_, ?_⟩
  · rfl
  · show (collectErrors (((partition.map (runPlaylistWorker env)).flatten).map Prod.fst)).length = 0
    rw [hres]
    rfl
  · show ((((partition.map (runPlaylistWorker env)).flatten).map Prod.snd)).flatten = []
    rw [hres]
    rfl

/-- Witness for C4 at two workers and an empty job list. -/
theorem claim_C4_witness :
    downloadSongList envOk [[], []] [] =
      { result := .error errNoSongs, failed := 0, fetched := [] } ∧
    (downloadPlaylist envOk [[], []]).result = .ok () ∧
    (downloadPlaylist envOk [[], []]).failed = 0 ∧
    (downloadPlaylist envOk [[], []]).fetched = [] :=
  claim_C4_zero_jobs envOk 2 [[], []]
    ⟨by rw [workersStarted_eq]; rfl, fun _ => by decide⟩

/-- C5 counterexample: a tabular input whose single row has exactly one
(nonempty) column yields an empty job list — the row is not used as a
literal query. -/
theorem claim_C5_counterexample :
    readSongsFromCSV [["Song A".toList]] = [] ∧
    readSongsFromCSV [["Song A".toList]] ≠ ["Song A".toList] := by
  decide

/-- C5 amended: a row with fewer than two fields, or whose first or
second field is empty after trimming, is skipped and contributes no job;
a tabular input with exactly one non-empty column per row therefore
yields an empty job list rather than one literal query per row. -/
theorem claim_C5_single_column_dropped (records : List (List GoStr))
    (h : ∀ r ∈ records, r.length < 2 ∨
      (trimSpace (r.getD 0 [])).isEmpty ∨ (trimSpace (r.getD 1 [])).isEmpty) :
    readSongsFromCSV records = [] := by
  have hpr : ∀ r ∈ records, processRecord r = [] := by
    intro r hr
    unfold processRecord
    rcases h r hr with hl | he | he
    · rw [if_neg (by omega)]
    · by_cases hlen : 2 ≤ r.length
      · rw [if_pos hlen, if_neg]
        intro hcond
        exact hcond.1 he
      · rw [if_neg hlen]
    · by_cases hlen : 2 ≤ r.length
      · rw [if_pos hlen, if_neg]
        intro hcond
        exact hcond.2 he
      · rw [if_neg hlen]
  cases records with
  | nil => rfl
  | cons record rest =>
    rw [readSongsFromCSV_cons,
      flatMap_nil_of_forall rest processRecord
        (fun a ha => hpr a (List.mem_cons_of_mem record ha)),
      hpr record (List.mem_cons_self record rest)]
    simp

/-- Witness for C5 on a two-row single-column table. -/
theorem claim_C5_witness :
    readSongsFromCSV [["Song A".toList], ["Song B".toList]] = [] :=
  claim_C5_single_column_dropped [["Song A".toList], ["Song B".toList]] (by decide)

/-- C7: for a CSV input whose first row has at least two fields, that
first row is skipped exactly when its first field lowercases to "artist"
or its second field lowercases to "song"; otherwise it is processed as a
data row like every other row. -/
theorem claim_C7_header_skip_iff (record : List GoStr) (rest : List (List GoStr))
    (h : 2 ≤ record.length) :
    ((goToLower (record.getD 0 []) = "artist".toList ∨
      goToLower (record.getD 1 []) = "song".toList) →
      readSongsFromCSV (record :: rest) = rest.flatMap processRecord) ∧
    (¬(goToLower (record.getD 0 []) = "artist".toList ∨
       goToLower (record.getD 1 []) = "song".toList) →
      readSongsFromCSV (record :: rest) =
        processRecord record ++ rest.flatMap processRecord) := by
  constructor
  · intro hcond
    have hh : isHeaderRow record = true := by
      unfold isHeaderRow
      simp only [Bool.and_eq_true, Bool.or_eq_true, decide_eq_true_eq, beq_iff_eq]
      exact ⟨h, hcond⟩
    rw [readSongsFromCSV_cons, hh]
    simp
  · intro hcond
    have hh : isHeaderRow record = false := by
      apply Bool.eq_false_iff.mpr
      intro htrue
      unfold isHeaderRow at htrue
      simp only [Bool.and_eq_true, Bool.or_eq_true, decide_eq_true_eq, beq_iff_eq] at htrue
      exact hcond htrue.2
    rw [readSongsFromCSV_cons, hh]
    simp

/-- Witness for C7: the header row ("Artist","Song") is skipped and the
data row ("Rick Astley","Never Gonna Give You Up") is kept. -/
theorem claim_C7_witness :
    readSongsFromCSV [["Artist".toList, "Song".toList],
        ["Rick Astley".toList, "Never Gonna Give You Up".toList]] =
      [["Rick Astley".toList, "Never Gonna Give You Up".toList]].flatMap processRecord :=
  (claim_C7_header_skip_iff ["Artist".toList, "Song".toList]
    [["Rick Astley".toList, "Never Gonna Give You Up".toList]] (by decide)).1
    (by decide)

/-- C8: when resolution of a job's query fails or returns zero
candidates, the worker reports a failure outcome for that job and makes
no fetch call for it; and a worker's handling of a job is independent of
the jobs around it in its queue share. -/
theorem claim_C8_no_fetch_on_resolve_failure (env : Env) (song : GoStr)
    (h : env.resolve (song ++ " audio".toList) = .ok [] ∨
         ∃ e, env.resolve (song ++ " audio".toList) = .error e) :
    ((songWorkerStep env song).1 ≠ none ∧ (songWorkerStep env song).2 = []) ∧
    ∀ pre post : List GoStr,
      runWorker env (pre ++ song :: post) =
        runWorker env pre ++ songWorkerStep env song :: runWorker env post := by
  constructor
  · unfold songWorkerStep
    rcases h with h0 | ⟨e, he⟩
    · rw [h0]
      exact ⟨by simp, rfl⟩
    · rw [he]
      exact ⟨by simp, rfl⟩
  · intro pre post
    unfold runWorker
    simp

/-- Witness for C8: a query resolving to zero candidates yields no fetch
call, and the surrounding jobs are processed independently. -/
theorem claim_C8_witness :
    (songWorkerStep envNotFound "Song A".toList).2 = [] ∧
    runWorker envNotFound ["Pre".toList, "Song A".toList, "Post".toList] =
      runWorker envNotFound ["Pre".toList] ++
        songWorkerStep envNotFound "Song A".toList :: runWorker envNotFound ["Post".toList] :=
  ⟨(claim_C8_no_fetch_on_resolve_failure envNotFound "Song A".toList (Or.inl rfl)).1.2,
   (claim_C8_no_fetch_on_resolve_failure envNotFound "Song A".toList (Or.inl rfl)).2
     ["Pre".toList] ["Post".toList]⟩
